import Mathlib

/-!
Verification development for the Daraz Nepal scraping pipeline
(`scraper.py`, `scraper_optimized.py`).

The Python code is shallowly embedded: BeautifulSoup / aiohttp / requests
are external collaborators, so a parsed search card is modelled by the
answers the selector engine gives on it (`Card.sel`), an anchor by its
`href`/text, a detail document by its selector answers (`Doc.sel`), and a
network fetch by an oracle `String → Except String ...` giving each URL's
outcome.  All control flow (retry loops, fallback chains, truncation,
rank assignment, merge policy) is translated statement by statement from
the source.
-/

namespace Daraz

/-- Base domain for Daraz Nepal (`scraper.py` line 28). -/
def BASE_URL : String := "https://www.daraz.com.np"

/-- Python `str.isdigit` on a single character, restricted to ASCII digits. -/
def pyIsDigit (c : Char) : Bool := c.isDigit

/-- Python `any(char.isdigit() for char in s)`. -/
def hasDigit (s : String) : Bool := s.data.any pyIsDigit

/-- Character-list prefix test: `isPrefixList p l` is true when `p` is an
initial segment of `l`. Used to embed Python `str.startswith`. -/
def isPrefixList : List Char → List Char → Bool
  | [], _ => true
  | _ :: _, [] => false
  | c :: p, d :: l => decide (c = d) && isPrefixList p l

/-- Python `s.startswith(p)`. -/
def pyStartsWith (s p : String) : Bool := isPrefixList p.data s.data

/-- Python `s.strip()` (whitespace trimmed from both ends). -/
def pyStrip (s : String) : String :=
  String.mk (((s.data.dropWhile Char.isWhitespace).reverse.dropWhile
    Char.isWhitespace).reverse)

/-- Python `s.split('\n')[0]`: the characters before the first newline. -/
def firstLine (s : String) : String :=
  String.mk (s.data.takeWhile (fun c => decide (c ≠ '\n')))

/-- An anchor element matching `a[href~'/products/']`, reduced to the data
the scrapers read from it: `link.get('href', '')` and
`link.get_text(strip=True)`. -/
structure Link where
  href : String
  text : String
deriving DecidableEq, Repr

/-- One discovered product card of a search-results page, reduced to what
`parse_search_results` observes: the first product anchor inside it (if
any), and for each CSS selector string the stripped text of
`card.select_one(selector)` (`none` when no element matches). -/
structure Card where
  link : Option Link
  sel : String → Option String

/-- A product summary emitted by the summary parser
(`scraper.py` lines 170-174). -/
structure Summary where
  name : String
  price : String
  url : String
deriving DecidableEq, Repr

/-- URL normalization of `scraper.py` lines 120-128. -/
def buildProductUrl (href : String) : String :=
  if pyStartsWith href "//" then "https:" ++ href
  else if pyStartsWith href "/" then BASE_URL ++ href
  else if pyStartsWith href "http" then href
  else BASE_URL ++ "/" ++ href

/-- The name selectors of `scraper.py` lines 131-138, in order. -/
def name_selectors : List String :=
  ["div[class*=\"title\"]",
   "div[class*=\"name\"]",
   "div[class*=\"product-name\"]",
   "h3", "h4", "h5",
   "span[class*=\"title\"]",
   "span[class*=\"name\"]"]

/-- The price selectors of `scraper.py` lines 153-159, in order. -/
def price_selectors : List String :=
  ["span[class*=\"price\"]",
   "div[class*=\"price\"]",
   "span[class*=\"currency\"]",
   "div[class*=\"currency\"]",
   "span[class*=\"amount\"]"]

/-- Plausibility check of the name loop (`scraper.py` line 145):
`product_name and len(product_name) > 3`. -/
def namePlausible (t : String) : Bool := decide (t ≠ "") && decide (t.length > 3)

/-- Plausibility check of the price loop (`scraper.py` line 166):
`price_text and any(char.isdigit() for char in price_text)`. -/
def pricePlausible (t : String) : Bool := decide (t ≠ "") && hasDigit t

/-- The shared shape of the two selector loops at `scraper.py`
lines 140-150 and 161-167: walk the selector list; whenever a selector
matches, overwrite the accumulator with its text and stop early exactly
when the plausibility check passes. -/
def fieldLoop (sel : String → Option String) (pass : String → Bool) :
    List String → Option String → Option String
  | [], acc => acc
  | s :: rest, acc =>
    match sel s with
    | none => fieldLoop sel pass rest acc
    | some t => if pass t then some t else fieldLoop sel pass rest (some t)

/-- Name extraction for one card (`scraper.py` lines 140-150), including
the fallback to the anchor's own text when the loop result is falsy. -/
def extractedName (card : Card) (link : Link) : String :=
  match fieldLoop card.sel namePlausible name_selectors none with
  | none => link.text
  | some t => if t = "" then link.text else t

/-- Price extraction for one card (`scraper.py` lines 161-167). -/
def extractedPrice (card : Card) : Option String :=
  fieldLoop card.sel pricePlausible price_selectors none

/-- Python `price_text or "Price not available"` (`scraper.py` line 172). -/
def priceOrDefault : Option String → String
  | none => "Price not available"
  | some p => if p = "" then "Price not available" else p

/-- The body of the card loop of `parse_search_results`
(`scraper.py` lines 109-178) for a single card: `none` models `continue`. -/
def parseCard (card : Card) : Option Summary :=
  match card.link with
  | none => none
  | some link =>
    if link.href = "" then none
    else
      let product_url := buildProductUrl link.href
      let product_name := extractedName card link
      let price_text := extractedPrice card
      if product_name ≠ "" ∧ product_url ≠ "" then
        some { name := product_name,
               price := priceOrDefault price_text,
               url := product_url }
      else none

/-- `parse_search_results` (`scraper.py` lines 70-180) on the discovered
card list: each card either contributes one summary or is skipped. -/
def parse_search_results (cards : List Card) : List Summary :=
  cards.filterMap parseCard

/-! ## Fetcher (`scraper.py` lines 44-67)

`fetch_html` is embedded over an oracle `attempts : Nat → Except String String`
giving the outcome of the `requests.get` on each 0-indexed attempt: `.ok body`
for an HTTP 200 body, `.error e` for any raised exception.  `fetchGo k rem`
runs the loop from attempt `k` with `rem` loop iterations left. -/

/-- The retry loop of `fetch_html`: on the last failing attempt the exception
is re-raised; with zero iterations the trailing `RuntimeError` is reached. -/
def fetchGo (attempts : Nat → Except String String) (k : Nat) :
    Nat → Except String String
  | 0 => Except.error "Unreachable code in fetch_html"
  | rem + 1 =>
    match attempts k with
    | Except.ok body => Except.ok body
    | Except.error e =>
      if rem = 0 then Except.error e else fetchGo attempts (k + 1) rem

/-- `fetch_html(url, max_retries=..., delay=...)`, result only. -/
def fetch_html (attempts : Nat → Except String String) (max_retries : Nat) :
    Except String String :=
  fetchGo attempts 0 max_retries

/-- The sleeps executed by the same loop, in order: `time.sleep(delay * 2**attempt)`
runs exactly when attempt `k` fails and is not the last one
(`scraper.py` line 66). -/
def fetchSleepsGo (attempts : Nat → Except String String) (delay : ℚ) (k : Nat) :
    Nat → List ℚ
  | 0 => []
  | rem + 1 =>
    match attempts k with
    | Except.ok _ => []
    | Except.error _ =>
      if rem = 0 then []
      else delay * 2 ^ k :: fetchSleepsGo attempts delay (k + 1) rem

/-- All backoff sleeps of one `fetch_html` call, in execution order. -/
def fetchSleeps (attempts : Nat → Except String String) (delay : ℚ)
    (max_retries : Nat) : List ℚ :=
  fetchSleepsGo attempts delay 0 max_retries

/-- How many attempts the same loop performs before returning or raising. -/
def fetchAttemptsGo (attempts : Nat → Except String String) (k : Nat) : Nat → Nat
  | 0 => 0
  | rem + 1 =>
    match attempts k with
    | Except.ok _ => 1
    | Except.error _ =>
      if rem = 0 then 1 else 1 + fetchAttemptsGo attempts (k + 1) rem

/-- Number of attempts one `fetch_html` call performs. -/
def fetchAttemptCount (attempts : Nat → Except String String)
    (max_retries : Nat) : Nat :=
  fetchAttemptsGo attempts 0 max_retries

/-- The delay slept immediately before attempt `k` executes (0 before the
first attempt; otherwise the sleep that followed attempt `k - 1`). -/
def delayBeforeAttempt (attempts : Nat → Except String String) (delay : ℚ)
    (max_retries k : Nat) : ℚ :=
  if k = 0 then 0 else (fetchSleeps attempts delay max_retries).getD (k - 1) 0

/-! ## Detail parser (`scraper.py` lines 183-378) -/

/-- A product-detail document, reduced to what `parse_product_details`
observes: for each CSS selector string, the stripped text of
`soup.select_one(selector)`. -/
structure Doc where
  sel : String → Option String

/-- Name selectors of the detail parser (`scraper.py` lines 218-225). -/
def detail_name_selectors : List String :=
  ["h1[class*=\"pdp-product-name\"]",
   "h1[class*=\"product-name\"]",
   "h1[class*=\"title\"]",
   "h1",
   "span[class*=\"pdp-product-name\"]",
   "div[class*=\"product-name\"]"]

/-- Current-price selectors (`scraper.py` lines 234-240). -/
def detail_price_selectors : List String :=
  ["span[class*=\"pdp-price\"]",
   "span[class*=\"current-price\"]",
   "span[class*=\"price-current\"]",
   "div[class*=\"price-current\"]",
   "span[class*=\"currency\"]"]

/-- Original-price selectors (`scraper.py` lines 249-254). -/
def original_price_selectors : List String :=
  ["span[class*=\"original-price\"]",
   "span[class*=\"price-original\"]",
   "span[class*=\"price-before\"]",
   "div[class*=\"price-original\"]"]

/-- Discount selectors (`scraper.py` lines 263-268). -/
def discount_selectors : List String :=
  ["span[class*=\"discount\"]", "div[class*=\"discount\"]",
   "span[class*=\"sale\"]", "div[class*=\"sale\"]"]

/-- Rating selectors (`scraper.py` lines 277-282). -/
def rating_selectors : List String :=
  ["span[class*=\"rating\"]", "div[class*=\"rating\"]",
   "span[class*=\"score\"]", "div[class*=\"score\"]"]

/-- Review-count selectors (`scraper.py` lines 293-298). -/
def review_selectors : List String :=
  ["span[class*=\"review\"]", "div[class*=\"review\"]",
   "span[class*=\"comment\"]", "div[class*=\"comment\"]"]

/-- Brand selectors (`scraper.py` lines 332-336). -/
def brand_selectors : List String :=
  ["span[class*=\"brand\"]", "div[class*=\"brand\"]", "a[class*=\"brand\"]"]

/-- Availability selectors (`scraper.py` lines 345-350). -/
def availability_selectors : List String :=
  ["span[class*=\"stock\"]", "div[class*=\"stock\"]",
   "span[class*=\"availability\"]", "div[class*=\"availability\"]"]

/-- Description selectors (`scraper.py` lines 361-366). -/
def desc_selectors : List String :=
  ["div[class*=\"description\"]", "div[class*=\"detail\"]",
   "div[class*=\"content\"]", "p[class*=\"description\"]"]

/-- The primary seller-name selector (`scraper.py` line 310). -/
def seller_primary_selector : String :=
  "div.seller-name__detail a.seller-name__detail-name"

/-- Loops of the form `for selector in L: if elem: field = text; break`:
the text of the first matching selector, default `""`
(the dictionary's initial value). -/
def selectFirst (sel : String → Option String) : List String → String
  | [] => ""
  | s :: rest =>
    match sel s with
    | some t => t
    | none => selectFirst sel rest

/-- Rating/review loops (`scraper.py` lines 284-290, 300-306): the field is
assigned only when the text is truthy and contains a digit, then the loop
breaks; otherwise the next selector is tried. -/
def selectFirstDigit (sel : String → Option String) : List String → String
  | [] => ""
  | s :: rest =>
    match sel s with
    | some t => if t ≠ "" ∧ hasDigit t then t else selectFirstDigit sel rest
    | none => selectFirstDigit sel rest

/-- The output dictionary of the detail pipeline.  Python success dicts have
no `"error"` key, failure dicts map it to `str(e)`: modelled by
`error : Option String`.  `specifications` is initialized to `{}` and never
written. -/
structure ProductRecord where
  product_name : String
  price : String
  original_price : String
  discount : String
  rating : String
  review_count : String
  seller_name : String
  seller_location : String
  seller_rating : String
  brand : String
  category : String
  availability : String
  description : String
  specifications : List (String × String)
  product_url : String
  rank : Nat
  scraped_at : String
  error : Option String
deriving DecidableEq, Repr

/-- `parse_product_details(html, product_url)` (`scraper.py` lines 183-378).
`now` stands for `time.strftime(...)`.  The seller fallback chain at lines
314-329 runs only when `select_one` itself raises, which the pure selector
model cannot do, so only the primary selector is consulted. -/
def parse_product_details (doc : Doc) (product_url : String) (now : String) :
    ProductRecord :=
  { product_name := selectFirst doc.sel detail_name_selectors
    price := selectFirst doc.sel detail_price_selectors
    original_price := selectFirst doc.sel original_price_selectors
    discount := selectFirst doc.sel discount_selectors
    rating := selectFirstDigit doc.sel rating_selectors
    review_count := selectFirstDigit doc.sel review_selectors
    seller_name := (doc.sel seller_primary_selector).getD ""
    seller_location := ""
    seller_rating := ""
    brand := selectFirst doc.sel brand_selectors
    category := ""
    availability := selectFirst doc.sel availability_selectors
    description := selectFirst doc.sel desc_selectors
    specifications := []
    product_url := product_url
    rank := 0
    scraped_at := now
    error := none }

/-- The degraded dictionary returned when the detail fetch raises
(`scraper.py` lines 395-414). -/
def degradedRecord (product_url e now : String) : ProductRecord :=
  { product_name := "Product details unavailable"
    price := "Price unavailable"
    original_price := ""
    discount := ""
    rating := ""
    review_count := ""
    seller_name := ""
    seller_location := ""
    seller_rating := ""
    brand := ""
    category := ""
    availability := ""
    description := ""
    specifications := []
    product_url := product_url
    rank := 0
    scraped_at := now
    error := some e }

/-- `get_product_details(product_url)` (`scraper.py` lines 381-414), over the
outcome of its single `fetch_html` call. -/
def get_product_details (product_url : String) (fetchRes : Except String Doc)
    (now : String) : ProductRecord :=
  match fetchRes with
  | Except.ok doc => parse_product_details doc product_url now
  | Except.error e => degradedRecord product_url e now

/-! ## Orchestration (`scraper.py` lines 452-487) -/

/-- The merge of lines 463-468: `{**detailed_info, "product_name":
detailed_info.get("product_name") or summary.get("name", ...), "price":
detailed_info.get("price") or summary.get("price", ...), "rank": i + 1}`.
Both dictionaries always carry their keys, so Python `or` reduces to a
truthiness test on the detailed value. -/
def mergeRecord (detailed : ProductRecord) (summary : Summary) (rank : Nat) :
    ProductRecord :=
  { detailed with
    product_name :=
      if detailed.product_name ≠ "" then detailed.product_name else summary.name
    price := if detailed.price ≠ "" then detailed.price else summary.price
    rank := rank }

/-- One iteration of the detail loop (`scraper.py` lines 457-473) for the
summary at 0-based index `rank - 1`.  The `except` branch at lines 475-485
is unreachable here: `get_product_details` catches all its own exceptions
and the remaining statements are pure. -/
def processSummary (summary : Summary) (fetchRes : Except String Doc)
    (now : String) (rank : Nat) : ProductRecord :=
  mergeRecord (get_product_details summary.url fetchRes now) summary rank

/-- The `for i, summary in enumerate(product_summaries)` loop
(`scraper.py` lines 457-485), started at 0-based index `i`;
`fetch url` is the outcome of `fetch_html(url)` inside
`get_product_details`. -/
def runDetails (fetch : String → Except String Doc) (now : String) :
    Nat → List Summary → List ProductRecord
  | _, [] => []
  | i, s :: rest =>
    processSummary s (fetch s.url) now (i + 1) :: runDetails fetch now (i + 1) rest

/-- `search_products` from successful summary parse onward
(`scraper.py` lines 452-487): truncate to `max_results`, then run the
detail loop with 1-based ranks. -/
def search_products (summaries : List Summary) (max_results : Nat)
    (fetch : String → Except String Doc) (now : String) : List ProductRecord :=
  runDetails fetch now 0 (summaries.take max_results)

/-! ## Facade (`scraper.py` lines 417-500) -/

/-- Outcome of the `scraper_selenium.search_products_selenium` fallback at
one call site: the import fails, the call raises, or it returns a list. -/
inductive SeleniumResult where
  | unavailable
  | failed (e : String)
  | ok (records : List ProductRecord)

/-- The single-element error dictionary `{"error": ...}` returned at
`scraper.py` lines 497 and 500, embedded with all other fields empty. -/
def errorOnlyRecord (e : String) : ProductRecord :=
  { product_name := ""
    price := ""
    original_price := ""
    discount := ""
    rating := ""
    review_count := ""
    seller_name := ""
    seller_location := ""
    seller_rating := ""
    brand := ""
    category := ""
    availability := ""
    description := ""
    specifications := []
    product_url := ""
    rank := 0
    scraped_at := ""
    error := some e }

/-- `search_products(query, max_results=...)` (`scraper.py` lines 417-500).
`searchFetch` is the outcome of `fetch_html(search_url)` together with the
card discovery on its body; `selenium` is the behaviour of the fallback
backend at whichever of the two call sites is reached.  Every branch of
the source returns a list — nothing escapes the outer `try`. -/
def search_products_facade (searchFetch : Except String (List Card))
    (selenium : SeleniumResult) (fetch : String → Except String Doc)
    (max_results : Nat) (now : String) : List ProductRecord :=
  match searchFetch with
  | Except.ok cards =>
    let summaries := parse_search_results cards
    if summaries.isEmpty then
      match selenium with
      | SeleniumResult.unavailable => []
      | SeleniumResult.failed _ => []
      | SeleniumResult.ok rs => rs
    else search_products summaries max_results fetch now
  | Except.error e =>
    match selenium with
    | SeleniumResult.unavailable => [errorOnlyRecord ("Search failed: " ++ e)]
    | SeleniumResult.failed se =>
      [errorOnlyRecord ("Search failed: " ++ e ++ ". Selenium error: " ++ se)]
    | SeleniumResult.ok rs => rs

/-! ## Optimized scraper (`scraper_optimized.py`) -/

/-- One product card as observed by
`MemoryOptimizedScraper.parse_search_results`: the first product anchor,
the stripped text of `card.select_one("div.RfADt")`, and the result of
`re.search(r'Rs\.\s*[\d,]+', card.get_text())` (`.group()` when it
matches). -/
structure OCard where
  link : Option Link
  rfadtText : Option String
  priceMatch : Option String

/-- `MemoryOptimizedScraper._extract_product_name`
(`scraper_optimized.py` lines 173-192). -/
def oExtractProductName (card : OCard) : String :=
  let fromPrimary : Option String :=
    match card.rfadtText with
    | some text =>
      if text ≠ "" then
        let clean_name := pyStrip (firstLine text)
        if clean_name ≠ "" ∧ clean_name.length > 3
            ∧ pyStartsWith clean_name "Rs." = false then
          some clean_name
        else none
      else none
    | none => none
  match fromPrimary with
  | some n => n
  | none =>
    match card.link with
    | some link => if link.text ≠ "" ∧ link.text.length > 3 then link.text else ""
    | none => ""

/-- `MemoryOptimizedScraper._extract_price`
(`scraper_optimized.py` lines 194-198): the regex match or `""`. -/
def oExtractPrice (card : OCard) : String := card.priceMatch.getD ""

/-- The body of the card loop of the optimized
`parse_search_results` (`scraper_optimized.py` lines 132-169). -/
def oParseCard (card : OCard) : Option Summary :=
  match card.link with
  | none => none
  | some link =>
    if link.href = "" then none
    else
      let product_url := buildProductUrl link.href
      let product_name := oExtractProductName card
      if product_name = "" then none
      else
        let price := oExtractPrice card
        some { name := product_name,
               price := if price = "" then "Price not available" else price,
               url := product_url }

/-- The optimized `parse_search_results` over its discovered cards. -/
def oParseSearchResults (cards : List OCard) : List Summary :=
  cards.filterMap oParseCard

/-- A detail document for the optimized parser: selector answers plus, for
each location regex pattern, the trimmed-to-be `group(1)` of
`re.search(pattern, soup.get_text())`. -/
structure ODoc where
  sel : String → Option String
  locMatch : String → Option String

/-- Detail name selectors (`scraper_optimized.py` lines 235-240). -/
def o_detail_name_selectors : List String :=
  ["h1[class*=\"pdp-product-name\"]",
   "h1[class*=\"product-name\"]",
   "h1[class*=\"title\"]",
   "h1"]

/-- Detail price selectors (`scraper_optimized.py` lines 249-254). -/
def o_detail_price_selectors : List String :=
  ["span[class*=\"pdp-price\"]",
   "span[class*=\"current-price\"]",
   "span[class*=\"price-current\"]",
   "div[class*=\"price-current\"]"]

/-- Location regex patterns (`scraper_optimized.py` lines 269-274). -/
def location_patterns : List String :=
  ["([A-Za-z\\s]+Province)",
   "([A-Za-z\\s]+District)",
   "([A-Za-z\\s]+City)",
   "([A-Za-z\\s]+Nepal)"]

/-- The location loop (`scraper_optimized.py` lines 276-282): first pattern
whose stripped match is truthy and longer than 3 characters. -/
def oLocationLoop (locMatch : String → Option String) : List String → String
  | [] => ""
  | p :: rest =>
    match locMatch p with
    | some m =>
      let location := pyStrip m
      if location ≠ "" ∧ location.length > 3 then location
      else oLocationLoop locMatch rest
    | none => oLocationLoop locMatch rest

/-- The result dictionary of the optimized detail pipeline. -/
structure ODetails where
  product_name : String
  price : String
  seller_name : String
  seller_location : String
  product_url : String
  rank : Nat
  scraped_at : String
  error : Option String
deriving DecidableEq, Repr

/-- `MemoryOptimizedScraper.parse_product_details`
(`scraper_optimized.py` lines 218-287). -/
def o_parse_product_details (doc : ODoc) (product_url now : String) : ODetails :=
  { product_name := selectFirst doc.sel o_detail_name_selectors
    price := selectFirst doc.sel o_detail_price_selectors
    seller_name := (doc.sel seller_primary_selector).getD ""
    seller_location := oLocationLoop doc.locMatch location_patterns
    product_url := product_url
    rank := 0
    scraped_at := now
    error := none }

/-- `MemoryOptimizedScraper.get_product_details`
(`scraper_optimized.py` lines 200-216). -/
def o_get_product_details (product_url : String) (fetchRes : Except String ODoc)
    (now : String) : ODetails :=
  match fetchRes with
  | Except.ok doc => o_parse_product_details doc product_url now
  | Except.error e =>
    { product_name := "Product details unavailable"
      price := "Price unavailable"
      seller_name := ""
      seller_location := ""
      product_url := product_url
      rank := 0
      scraped_at := now
      error := some e }

/-- The streamed record (`scraper_optimized.py` lines 34-47). -/
structure ProductData where
  product_name : String
  price : String
  seller_name : String
  seller_location : String
  product_url : String
  rank : Nat
  scraped_at : String
deriving DecidableEq, Repr

/-- `MemoryOptimizedScraper._process_single_product`
(`scraper_optimized.py` lines 339-364).  Its `except` branch (yielding
`None`) is unreachable here: `get_product_details` catches its own
exceptions and the remaining statements are pure, so the task always
produces a `ProductData`. -/
def processSingleProduct (summary : Summary) (rank : Nat)
    (fetchRes : Except String ODoc) (now : String) : ProductData :=
  let detailed := o_get_product_details summary.url fetchRes now
  { product_name :=
      if detailed.product_name ≠ "" then detailed.product_name else summary.name
    price := if detailed.price ≠ "" then detailed.price else summary.price
    seller_name := detailed.seller_name
    seller_location := detailed.seller_location
    product_url := summary.url
    rank := rank
    scraped_at := now }

/-- The task-building loop (`scraper_optimized.py` lines 313-316), started
at 0-based index `i`: one task per truncated summary, rank `i + 1`. -/
def buildTasks (fetch : String → Except String ODoc) (now : String) :
    Nat → List Summary → List ProductData
  | _, [] => []
  | i, s :: rest =>
    processSingleProduct s (i + 1) (fetch s.url) now
      :: buildTasks fetch now (i + 1) rest

/-- The batching loop (`scraper_optimized.py` lines 318-330): tasks are
gathered in slices of `batch_size`; `asyncio.gather` preserves task order,
so each batch's results appear in task order. -/
def batchedChunks (batch_size : Nat) : List α → List (List α)
  | [] => []
  | a :: l =>
    (a :: l.take (batch_size - 1)) :: batchedChunks batch_size (l.drop (batch_size - 1))
termination_by l => l.length
decreasing_by simp [List.length_drop]; omega

/-- `MemoryOptimizedScraper.search_products_streaming`
(`scraper_optimized.py` lines 289-337) from a successful summary parse
onward: truncate, build rank-tagged tasks, process in batches of
`batch_size = min(self.max_concurrent, len(tasks))`, and yield every
result in batch order. -/
def search_products_streaming (summaries : List Summary)
    (max_results max_concurrent : Nat) (fetch : String → Except String ODoc)
    (now : String) : List ProductData :=
  let truncated := summaries.take max_results
  let tasks := buildTasks fetch now 0 truncated
  (batchedChunks (min max_concurrent tasks.length) tasks).flatten

/-! ## Concrete witnesses and counterexample inputs -/

/-- An attempt oracle on which every request raises. -/
def allFail : Nat → Except String String := fun _ => Except.error "network error"

/-- A detail-fetch oracle on which every request raises. -/
def wFetch : String → Except String Doc := fun _ => Except.error "net down"

/-- A streaming detail-fetch oracle on which every request raises. -/
def owFetch : String → Except String ODoc := fun _ => Except.error "net down"

/-- A summary whose detail fetch will fail. -/
def c2Summary : Summary :=
  { name := "Foo", price := "Rs. 5", url := "https://www.daraz.com.np/products/foo" }

/-- A card with an extractable product URL but no extractable name: every
name selector misses and the anchor text is empty. -/
def c5Card : Card :=
  { link := some { href := "/products/x", text := "" }, sel := fun _ => none }

/-- A card whose product anchor is protocol-relative and points at a
different host. -/
def c6Card : Card :=
  { link := some { href := "//evil.com/products/x", text := "Some product" },
    sel := fun _ => none }

/-- A card on which only implausible values are produced: the first name
selector yields a 3-character name, the first price selector a digit-free
price, and nothing else matches. -/
def c7Card : Card :=
  { link := some { href := "/products/x", text := "A fine product" },
    sel := fun q =>
      if q = "div[class*=\"title\"]" then some "abc"
      else if q = "span[class*=\"price\"]" then some "free" else none }

/-- The summary `c7Card` produces. -/
def c7Summary : Summary :=
  { name := "abc", price := "free",
    url := "https://www.daraz.com.np/products/x" }

/-- A card emitting a summary with no extractable price. -/
def c10Card : Card :=
  { link := some { href := "/products/x", text := "Nice product" },
    sel := fun _ => none }

/-- The summary `c10Card` produces. -/
def c10Summary : Summary :=
  { name := "Nice product", price := "Price not available",
    url := "https://www.daraz.com.np/products/x" }

/-- An optimized card emitting a summary with no extractable price. -/
def c10OCard : OCard :=
  { link := some { href := "/products/y", text := "Another product" },
    rfadtText := none, priceMatch := none }

/-- The summary `c10OCard` produces. -/
def c10OSummary : Summary :=
  { name := "Another product", price := "Price not available",
    url := "https://www.daraz.com.np/products/y" }

/-- A detail document on which every extraction misses. -/
def emptyDoc : Doc := { sel := fun _ => none }

/-- The summary `c6Card` produces. -/
def c6Summary : Summary :=
  { name := "Some product", price := "Price not available",
    url := "https://evil.com/products/x" }

/-! ## Helper lemmas -/

theorem isPrefixList_append_of {p l : List Char} (r : List Char)
    (h : isPrefixList p l = true) : isPrefixList p (l ++ r) = true := by
  induction p generalizing l with
  | nil => rfl
  | cons c p ih =>
    cases l with
    | nil => simp [isPrefixList] at h
    | cons d l' =>
      simp [isPrefixList] at h ⊢
      exact ⟨h.1, ih h.2⟩

theorem pyStartsWith_append (a b p : String) (h : pyStartsWith a p = true) :
    pyStartsWith (a ++ b) p = true := by
  simp only [pyStartsWith, String.data_append]
  exact isPrefixList_append_of _ h

theorem startsWith_http_ne_empty (s : String)
    (h : pyStartsWith s "http" = true) : s ≠ "" := by
  intro he
  subst he
  exact absurd h (by decide)

theorem buildProductUrl_startsWith_http (href : String) :
    pyStartsWith (buildProductUrl href) "http" = true := by
  unfold buildProductUrl
  split
  · exact pyStartsWith_append "https:" href "http" (by decide)
  · split
    · exact pyStartsWith_append BASE_URL href "http" (by decide)
    · split
      · assumption
      · exact pyStartsWith_append (BASE_URL ++ "/") href "http" (by decide)

theorem buildProductUrl_ne_empty (href : String) : buildProductUrl href ≠ "" :=
  startsWith_http_ne_empty _ (buildProductUrl_startsWith_http href)

theorem buildProductUrl_canonical (href : String)
    (h1 : pyStartsWith href "//" = false) (h2 : pyStartsWith href "http" = false) :
    pyStartsWith (buildProductUrl href) BASE_URL = true := by
  unfold buildProductUrl
  rw [h1, h2]
  simp only [Bool.false_eq_true, if_false]
  split
  · exact pyStartsWith_append BASE_URL href BASE_URL (by decide)
  · exact pyStartsWith_append (BASE_URL ++ "/") href BASE_URL (by decide)

/-- Inversion principle for one emitted summary. -/
theorem parseCard_eq_some {card : Card} {s : Summary}
    (h : parseCard card = some s) :
    ∃ link, card.link = some link ∧ link.href ≠ ""
      ∧ extractedName card link ≠ ""
      ∧ s = { name := extractedName card link,
              price := priceOrDefault (extractedPrice card),
              url := buildProductUrl link.href } := by
  cases hl : card.link with
  | none => simp [parseCard, hl] at h
  | some link =>
    simp only [parseCard, hl] at h
    split at h
    · exact absurd h (by simp)
    · split at h
      · rename_i hcond
        exact ⟨link, rfl, by assumption, hcond.1, (Option.some.injEq _ _).mp h.symm⟩
      · exact absurd h (by simp)

/-- Inversion principle for one summary emitted by the optimized parser. -/
theorem oParseCard_eq_some {card : OCard} {s : Summary}
    (h : oParseCard card = some s) :
    ∃ link, card.link = some link ∧ link.href ≠ ""
      ∧ oExtractProductName card ≠ ""
      ∧ s = { name := oExtractProductName card,
              price := if oExtractPrice card = "" then "Price not available"
                       else oExtractPrice card,
              url := buildProductUrl link.href } := by
  cases hl : card.link with
  | none => simp [oParseCard, hl] at h
  | some link =>
    simp only [oParseCard, hl] at h
    split at h
    · exact absurd h (by simp)
    · split at h
      · exact absurd h (by simp)
      · rename_i hhref hname
        exact ⟨link, rfl, hhref, hname, (Option.some.injEq _ _).mp h.symm⟩

theorem runDetails_length (fetch : String → Except String Doc) (now : String) :
    ∀ (i : Nat) (l : List Summary), (runDetails fetch now i l).length = l.length := by
  intro i l
  induction l generalizing i with
  | nil => simp [runDetails]
  | cons s rest ih => simp [runDetails, ih]

theorem processSummary_rank (s : Summary) (fr : Except String Doc)
    (now : String) (rank : Nat) : (processSummary s fr now rank).rank = rank := by
  simp [processSummary, mergeRecord]

theorem runDetails_map_rank (fetch : String → Except String Doc) (now : String) :
    ∀ (i : Nat) (l : List Summary),
      (runDetails fetch now i l).map ProductRecord.rank = List.range' (i + 1) l.length := by
  intro i l
  induction l generalizing i with
  | nil => simp [runDetails]
  | cons s rest ih =>
    simp only [runDetails, List.map_cons, processSummary_rank, ih, List.length_cons]
    rw [List.range'_succ]

theorem search_products_length (summaries : List Summary) (m : Nat)
    (fetch : String → Except String Doc) (now : String) :
    (search_products summaries m fetch now).length = min summaries.length m := by
  rw [search_products, runDetails_length, List.length_take, Nat.min_comm]

theorem flatten_batchedChunks_aux {α : Type} (bs : Nat) :
    ∀ (n : Nat) (l : List α), l.length ≤ n → (batchedChunks bs l).flatten = l := by
  intro n
  induction n with
  | zero =>
    intro l hl
    rw [List.length_eq_zero.mp (Nat.le_zero.mp hl)]
    simp [batchedChunks]
  | succ n ih =>
    intro l hl
    match l with
    | [] => simp [batchedChunks]
    | a :: t =>
      rw [batchedChunks]
      simp only [List.flatten_cons]
      rw [ih (t.drop (bs - 1)) (by simp only [List.length_drop]; simp at hl; omega)]
      simp [List.take_append_drop]

theorem flatten_batchedChunks {α : Type} (bs : Nat) (l : List α) :
    (batchedChunks bs l).flatten = l :=
  flatten_batchedChunks_aux bs l.length l (Nat.le_refl _)

theorem buildTasks_length (fetch : String → Except String ODoc) (now : String) :
    ∀ (i : Nat) (l : List Summary), (buildTasks fetch now i l).length = l.length := by
  intro i l
  induction l generalizing i with
  | nil => simp [buildTasks]
  | cons s rest ih => simp [buildTasks, ih]

theorem processSingleProduct_rank (s : Summary) (rank : Nat)
    (fr : Except String ODoc) (now : String) :
    (processSingleProduct s rank fr now).rank = rank := by
  simp [processSingleProduct]

theorem buildTasks_map_rank (fetch : String → Except String ODoc) (now : String) :
    ∀ (i : Nat) (l : List Summary),
      (buildTasks fetch now i l).map ProductData.rank = List.range' (i + 1) l.length := by
  intro i l
  induction l generalizing i with
  | nil => simp [buildTasks]
  | cons s rest ih =>
    simp only [buildTasks, List.map_cons, processSingleProduct_rank, ih, List.length_cons]
    rw [List.range'_succ]

theorem search_products_streaming_eq (summaries : List Summary)
    (m mc : Nat) (fetch : String → Except String ODoc) (now : String) :
    search_products_streaming summaries m mc fetch now
      = buildTasks fetch now 0 (summaries.take m) := by
  rw [search_products_streaming]
  exact flatten_batchedChunks _ _

/-! ## Claims -/

/-- C1: Rank continuity.  For every search invocation whose summary parse
yields `n` summaries, after truncation to `max_results` the returned list
(blocking orchestrator of `scraper.py`, and streaming orchestrator of
`scraper_optimized.py`) has exactly `min n max_results` records whose
`rank` fields are exactly `1, 2, ..., min n max_results` in order, each
appearing exactly once, for every detail-fetch oracle — that is,
regardless of how many detail fetches or parses fail. -/
theorem C1_rank_continuity (summaries : List Summary) (max_results : Nat)
    (fetch : String → Except String Doc) (now : String)
    (osummaries : List Summary) (max_concurrent : Nat)
    (ofetch : String → Except String ODoc) :
    (search_products summaries max_results fetch now).length
        = min summaries.length max_results
    ∧ (search_products summaries max_results fetch now).map ProductRecord.rank
        = List.range' 1 (min summaries.length max_results)
    ∧ (search_products_streaming osummaries max_results max_concurrent ofetch now).length
        = min osummaries.length max_results
    ∧ (search_products_streaming osummaries max_results max_concurrent ofetch now).map
          ProductData.rank
        = List.range' 1 (min osummaries.length max_results) := by
  refine ⟨search_products_length _ _ _ _, ?_, ?_, ?_⟩
  · rw [search_products, runDetails_map_rank, List.length_take, Nat.min_comm]
  · rw [search_products_streaming_eq, buildTasks_length, List.length_take, Nat.min_comm]
  · rw [search_products_streaming_eq, buildTasks_map_rank, List.length_take, Nat.min_comm]

/-- C2 counterexample: for the summary `c2Summary` whose detail fetch
fails, the emitted record's `product_name` and `price` are the sentinels
`"Product details unavailable"` / `"Price unavailable"`, not the summary's
`name` / `price` as the claim states. -/
theorem C2_counterexample :
    (processSummary c2Summary (Except.error "timeout") "t" 1).product_name
        ≠ c2Summary.name
    ∧ (processSummary c2Summary (Except.error "timeout") "t" 1).price
        ≠ c2Summary.price
    ∧ (processSummary c2Summary (Except.error "timeout") "t" 1).product_name
        = "Product details unavailable" := by
  refine ⟨by decide, by decide, by decide⟩

/-- C2 (amended): when the detail fetch for the summary at rank `rank`
fails with cause `e`, the emitted record keeps the summary's `url` as
`product_url`, keeps rank `rank`, and carries a populated `error` field
equal to the cause; but its `product_name` and `price` are the degraded
sentinels `"Product details unavailable"` and `"Price unavailable"` (the
summary's `name`/`price` would be used only if the detail record's fields
were empty, and the sentinels are not). -/
theorem C2_degradation_amended (s : Summary) (e now : String) (rank : Nat) :
    (processSummary s (Except.error e) now rank).product_url = s.url
    ∧ (processSummary s (Except.error e) now rank).error = some e
    ∧ (processSummary s (Except.error e) now rank).rank = rank
    ∧ (processSummary s (Except.error e) now rank).product_name
        = "Product details unavailable"
    ∧ (processSummary s (Except.error e) now rank).price = "Price unavailable" := by
  refine ⟨rfl, rfl, rfl, by simp [processSummary, mergeRecord, get_product_details,
    degradedRecord], by simp [processSummary, mergeRecord, get_product_details,
    degradedRecord]⟩

theorem fetchGo_all_fail (attempts : Nat → Except String String) :
    ∀ (rem k : Nat), 1 ≤ rem →
      (∀ j, j < rem → ∃ e, attempts (k + j) = Except.error e) →
      fetchGo attempts k rem = attempts (k + rem - 1) := by
  intro rem
  induction rem with
  | zero => intro k h; omega
  | succ r ih =>
    intro k _ hfail
    obtain ⟨e, he⟩ := hfail 0 (by omega)
    have he' : attempts k = Except.error e := by simpa using he
    cases r with
    | zero => simp [fetchGo, he']
    | succ r' =>
      calc fetchGo attempts k (r' + 1 + 1)
          = fetchGo attempts (k + 1) (r' + 1) := by simp [fetchGo, he']
        _ = attempts (k + 1 + (r' + 1) - 1) :=
            ih (k + 1) (by omega)
              (fun j hj => by
                have := hfail (j + 1) (by omega)
                rwa [show k + (j + 1) = k + 1 + j by omega] at this)
        _ = attempts (k + (r' + 1 + 1) - 1) := by congr 1; omega

theorem fetchGo_error_iff (attempts : Nat → Except String String) :
    ∀ (rem k : Nat),
      (∃ e, fetchGo attempts k rem = Except.error e) ↔
      (∀ j, j < rem → ∃ e, attempts (k + j) = Except.error e) := by
  intro rem
  induction rem with
  | zero =>
    intro k
    constructor
    · intro _ j hj; omega
    · intro _; exact ⟨_, rfl⟩
  | succ r ih =>
    intro k
    cases ha : attempts k with
    | ok body =>
      simp only [fetchGo, ha]
      constructor
      · intro ⟨e, he⟩; simp at he
      · intro h
        obtain ⟨e, he⟩ := h 0 (by omega)
        rw [Nat.add_zero, ha] at he
        simp at he
    | error e =>
      simp only [fetchGo, ha]
      cases r with
      | zero =>
        simp only [if_pos rfl]
        constructor
        · intro _ j hj
          have hj0 : j = 0 := by omega
          subst hj0
          exact ⟨e, by simpa using ha⟩
        · intro _; exact ⟨e, rfl⟩
      | succ r' =>
        rw [if_neg (by omega)]
        rw [ih (k + 1)]
        constructor
        · intro h j hj
          cases j with
          | zero => exact ⟨e, by simpa using ha⟩
          | succ j' =>
            have := h j' (by omega)
            rwa [show k + 1 + j' = k + (j' + 1) by omega] at this
        · intro h j hj
          have := h (j + 1) (by omega)
          rwa [show k + (j + 1) = k + 1 + j by omega] at this

theorem fetchSleepsGo_all_fail (attempts : Nat → Except String String) (d : ℚ) :
    ∀ (rem k : Nat),
      (∀ j, j < rem → ∃ e, attempts (k + j) = Except.error e) →
      fetchSleepsGo attempts d k rem
        = (List.range (rem - 1)).map (fun i => d * 2 ^ (k + i)) := by
  intro rem
  induction rem with
  | zero => intro k _; simp [fetchSleepsGo]
  | succ r ih =>
    intro k hfail
    obtain ⟨e, he⟩ := hfail 0 (by omega)
    have he' : attempts k = Except.error e := by simpa using he
    cases r with
    | zero => simp [fetchSleepsGo, he']
    | succ r' =>
      calc fetchSleepsGo attempts d k (r' + 1 + 1)
          = d * 2 ^ k :: fetchSleepsGo attempts d (k + 1) (r' + 1) := by
            simp [fetchSleepsGo, he']
        _ = d * 2 ^ k
              :: (List.range (r' + 1 - 1)).map (fun i => d * 2 ^ (k + 1 + i)) := by
            rw [ih (k + 1)
              (fun j hj => by
                have := hfail (j + 1) (by omega)
                rwa [show k + (j + 1) = k + 1 + j by omega] at this)]
        _ = (List.range (r' + 1 + 1 - 1)).map (fun i => d * 2 ^ (k + i)) := by
            rw [show r' + 1 - 1 = r' by omega, show r' + 1 + 1 - 1 = r' + 1 by omega,
              List.range_succ_eq_map, List.map_cons, List.map_map, Nat.add_zero]
            congr 1
            exact List.map_congr_left (fun i _ => by
              simp only [Function.comp_apply]
              have hkk : k + 1 + i = k + Nat.succ i := by omega
              rw [hkk])

theorem fetchAttemptsGo_all_fail (attempts : Nat → Except String String) :
    ∀ (rem k : Nat),
      (∀ j, j < rem → ∃ e, attempts (k + j) = Except.error e) →
      fetchAttemptsGo attempts k rem = rem := by
  intro rem
  induction rem with
  | zero => intro k _; rfl
  | succ r ih =>
    intro k hfail
    obtain ⟨e, he⟩ := hfail 0 (by omega)
    have he' : attempts k = Except.error e := by simpa using he
    cases r with
    | zero => simp [fetchAttemptsGo, he']
    | succ r' =>
      calc fetchAttemptsGo attempts k (r' + 1 + 1)
          = 1 + fetchAttemptsGo attempts (k + 1) (r' + 1) := by
            simp [fetchAttemptsGo, he']
        _ = 1 + (r' + 1) := by
            rw [ih (k + 1)
              (fun j hj => by
                have := hfail (j + 1) (by omega)
                rwa [show k + (j + 1) = k + 1 + j by omega] at this)]
        _ = r' + 1 + 1 := by omega

/-- C3 counterexample: with every attempt failing, `baseDelay = 1` and
`maxRetries = 3`, the delay slept before attempt `1` (0-indexed) is
`1 = baseDelay * 2^0`, not `baseDelay * 2^1` as the claim's formula
requires. -/
theorem C3_counterexample :
    delayBeforeAttempt allFail 1 3 1 = 1
    ∧ delayBeforeAttempt allFail 1 3 1 ≠ 1 * 2 ^ 1 := by
  constructor
  · simp [delayBeforeAttempt, fetchSleeps, fetchSleepsGo, allFail]
  · simp [delayBeforeAttempt, fetchSleeps, fetchSleepsGo, allFail]

/-- C3 (amended): when every attempt fails, the sleeps of one
`fetch_html(url, max_retries, delay)` call are exactly
`delay * 2^0, delay * 2^1, ..., delay * 2^(max_retries - 2)` — i.e. the
delay slept after attempt `k` fails (hence before attempt `k + 1`) is
`delay * 2^k`, so the delay before attempt `k` (0-indexed) is `0` for
`k = 0` and `delay * 2^(k-1)` for `k ≥ 1`; the delays are non-decreasing
for a non-negative base delay; all `max_retries` attempts are performed,
and the call fails only then, re-raising the final attempt's error. -/
theorem C3_backoff_amended (attempts : Nat → Except String String) (d : ℚ)
    (m : Nat) (hfail : ∀ k, k < m → ∃ e, attempts k = Except.error e)
    (hd : 0 ≤ d) (hm : 1 ≤ m) :
    fetchSleeps attempts d m = (List.range (m - 1)).map (fun k => d * 2 ^ k)
    ∧ (fetchSleeps attempts d m).Pairwise (· ≤ ·)
    ∧ delayBeforeAttempt attempts d m 0 = 0
    ∧ (∀ k, 1 ≤ k → k < m → delayBeforeAttempt attempts d m k = d * 2 ^ (k - 1))
    ∧ fetchAttemptCount attempts m = m
    ∧ fetch_html attempts m = attempts (m - 1) := by
  have hwin : ∀ j, j < m → ∃ e, attempts (0 + j) = Except.error e := by
    intro j hj
    simpa using hfail j hj
  have hsleeps : fetchSleeps attempts d m
      = (List.range (m - 1)).map (fun k => d * 2 ^ k) := by
    rw [fetchSleeps, fetchSleepsGo_all_fail attempts d m 0 hwin]
    exact List.map_congr_left (fun i _ => by rw [Nat.zero_add])
  refine ⟨hsleeps, ?_, by simp [delayBeforeAttempt], ?_, ?_, ?_⟩
  · rw [hsleeps, List.pairwise_map]
    exact (List.pairwise_lt_range _).imp
      (fun h => mul_le_mul_of_nonneg_left
        (pow_le_pow_right₀ one_le_two (le_of_lt h)) hd)
  · intro k hk1 hkm
    rw [delayBeforeAttempt, if_neg (by omega), hsleeps,
      List.getD_eq_getElem?_getD, List.getElem?_map,
      List.getElem?_range (by omega : k - 1 < m - 1)]
    rfl
  · rw [fetchAttemptCount, fetchAttemptsGo_all_fail attempts m 0 hwin]
  · rw [fetch_html, fetchGo_all_fail attempts m 0 hm hwin, Nat.zero_add]

/-- C3 witness: the amended schedule at `allFail`, `baseDelay = 1`,
`maxRetries = 3`: delay before attempt 2 is `1 * 2^1`, all 3 attempts are
made, and the call fails with the final attempt's error. -/
theorem C3_backoff_witness :
    delayBeforeAttempt allFail 1 3 2 = 1 * 2 ^ 1
    ∧ fetchAttemptCount allFail 3 = 3
    ∧ fetch_html allFail 3 = allFail 2 :=
  have H := C3_backoff_amended allFail 1 3
    (fun k _ => ⟨"network error", rfl⟩) (by norm_num) (by norm_num)
  ⟨H.2.2.2.1 2 (by norm_num) (by norm_num), H.2.2.2.2.1, H.2.2.2.2.2⟩

/-- C4: `fetch_html` errors exactly when all `max_retries` attempts fail;
on exhausting retries it re-raises the final attempt's error (the last
underlying cause, raised while requesting the given url), and its caller
`get_product_details` performs no retry: its single fetch outcome, when
an error, is surfaced directly as the degraded record carrying the url
and that cause. -/
theorem C4_fetch_error_contract (attempts : Nat → Except String String)
    (m : Nat) :
    ((∃ e, fetch_html attempts m = Except.error e)
        ↔ (∀ k, k < m → ∃ e, attempts k = Except.error e))
    ∧ (1 ≤ m → (∀ k, k < m → ∃ e, attempts k = Except.error e) →
        fetch_html attempts m = attempts (m - 1))
    ∧ (∀ url e now,
        get_product_details url (Except.error e) now = degradedRecord url e now
        ∧ (degradedRecord url e now).product_url = url
        ∧ (degradedRecord url e now).error = some e) := by
  refine ⟨?_, ?_, fun url e now => ⟨rfl, rfl, rfl⟩⟩
  · rw [fetch_html, fetchGo_error_iff attempts m 0]
    constructor
    · intro h k hk; simpa using h k hk
    · intro h j hj; simpa using h j hj
  · intro hm hfail
    rw [fetch_html, fetchGo_all_fail attempts m 0 hm
      (fun j hj => by simpa using hfail j hj), Nat.zero_add]

/-- C4 witness: with all three attempts failing, `fetch_html` fails with
the last attempt's error, and `get_product_details` surfaces a failed
fetch as the degraded record. -/
theorem C4_fetch_witness :
    fetch_html allFail 3 = Except.error "network error"
    ∧ get_product_details "u" (Except.error "net down") "t"
        = degradedRecord "u" "net down" "t" :=
  have H := C4_fetch_error_contract allFail 3
  ⟨H.2.1 (by norm_num) (fun k _ => ⟨"network error", rfl⟩),
   (H.2.2 "u" "net down" "t").1⟩

theorem fieldLoop_of_find?_eq_some (sel : String → Option String)
    (pass : String → Bool) :
    ∀ (sels : List String) (acc : Option String) (t : String),
      (sels.filterMap sel).find? pass = some t →
      fieldLoop sel pass sels acc = some t := by
  intro sels
  induction sels with
  | nil => intro acc t h; simp at h
  | cons s rest ih =>
    intro acc t h
    rw [List.filterMap_cons] at h
    cases hs : sel s with
    | none =>
      rw [hs] at h
      simp only [fieldLoop, hs]
      exact ih acc t h
    | some v =>
      rw [hs] at h
      by_cases hp : pass v
      · rw [List.find?_cons_of_pos _ hp] at h
        simp only [fieldLoop, hs, if_pos hp]
        exact h
      · rw [List.find?_cons_of_neg _ hp] at h
        simp only [fieldLoop, hs, if_neg hp]
        exact ih (some v) t h

theorem fieldLoop_of_find?_eq_none (sel : String → Option String)
    (pass : String → Bool) :
    ∀ (sels : List String) (acc : Option String),
      (sels.filterMap sel).find? pass = none →
      fieldLoop sel pass sels acc
        = match (sels.filterMap sel).getLast? with
          | some v => some v
          | none => acc := by
  intro sels
  induction sels with
  | nil => intro acc _; simp [fieldLoop]
  | cons s rest ih =>
    intro acc h
    cases hs : sel s with
    | none =>
      simp only [List.filterMap_cons, hs] at h ⊢
      simp only [fieldLoop, hs]
      exact ih acc h
    | some v =>
      simp only [List.filterMap_cons, hs] at h ⊢
      by_cases hp : pass v
      · rw [List.find?_cons_of_pos _ hp] at h
        simp at h
      · rw [List.find?_cons_of_neg _ hp] at h
        simp only [fieldLoop, hs, if_neg hp]
        rw [ih (some v) h]
        cases hfm : rest.filterMap sel with
        | nil => simp
        | cons w ws =>
          simp only [List.getLast?_cons_cons]
          cases hg : (w :: ws).getLast? with
          | none => simp at hg
          | some u => rfl

theorem priceOrDefault_ne_empty (p : Option String) : priceOrDefault p ≠ "" := by
  cases p with
  | none => decide
  | some q =>
    by_cases hq : q = ""
    · simp only [priceOrDefault, if_pos hq]
      decide
    · simp only [priceOrDefault, if_neg hq]
      exact hq

/-- C5 counterexample: `c5Card` carries a product anchor with a non-empty
href (so a product URL is extractable — the normalization of its href is a
well-formed product URL), yet the parser skips it because no name is
extractable; the claim says a card with at least one of URL or name
extractable is emitted. -/
theorem C5_counterexample :
    parseCard c5Card = none
    ∧ c5Card.link = some { href := "/products/x", text := "" }
    ∧ buildProductUrl "/products/x" = "https://www.daraz.com.np/products/x" := by
  exact ⟨by decide, rfl, by decide⟩

/-- C5 (amended): the summary parser emits a card if and only if it has a
product anchor with a non-empty href AND the extracted name (after the
anchor-text fallback) is non-empty; a card missing either — in particular
one with an extractable URL but no extractable name — is skipped.
Skipped cards are not counted toward `max_results`: truncation applies to
the emitted list, so the output length is `min emitted max_results`. -/
theorem C5_skip_rule_amended (card : Card) (cards : List Card) (m : Nat)
    (fetch : String → Except String Doc) (now : String) :
    ((parseCard card).isSome = true
        ↔ ∃ link, card.link = some link ∧ link.href ≠ ""
            ∧ extractedName card link ≠ "")
    ∧ (search_products (parse_search_results cards) m fetch now).length
        = min (parse_search_results cards).length m := by
  refine ⟨?_, search_products_length _ _ _ _⟩
  constructor
  · intro h
    obtain ⟨s, hs⟩ := Option.isSome_iff_exists.mp h
    obtain ⟨link, hl, hhref, hname, _⟩ := parseCard_eq_some hs
    exact ⟨link, hl, hhref, hname⟩
  · rintro ⟨link, hl, hhref, hname⟩
    simp only [parseCard, hl]
    rw [if_neg hhref]
    simp [hname, buildProductUrl_ne_empty]

/-- C5 witness: `c10Card` has an anchor with non-empty href and extractable
name, and is indeed emitted. -/
theorem C5_skip_rule_witness : (parseCard c10Card).isSome = true :=
  (C5_skip_rule_amended c10Card [] 0 wFetch "t").1.mpr
    ⟨{ href := "/products/x", text := "Nice product" }, rfl, by decide, by decide⟩

/-- C6 counterexample: a card whose product anchor has the
protocol-relative href `//evil.com/products/x` is emitted with url
`https://evil.com/products/x`, which does not begin with the marketplace's
canonical scheme+host `https://www.daraz.com.np`. -/
theorem C6_counterexample :
    parse_search_results [c6Card] = [c6Summary]
    ∧ pyStartsWith c6Summary.url BASE_URL = false := by
  exact ⟨by decide, by decide⟩

/-- C6 (amended): every emitted summary's url is absolute in the sense of
beginning with `"http"`; it is guaranteed to begin with the canonical
scheme+host `https://www.daraz.com.np` only when the card's href is
neither protocol-relative (`//...`, which gets just `https:` prepended,
keeping its own host) nor already absolute (`http...`, which is kept
as-is). -/
theorem C6_url_amended (card : Card) (s : Summary)
    (h : parseCard card = some s) :
    pyStartsWith s.url "http" = true
    ∧ (∀ link, card.link = some link →
        pyStartsWith link.href "//" = false →
        pyStartsWith link.href "http" = false →
        pyStartsWith s.url BASE_URL = true) := by
  obtain ⟨link, hl, hhref, hname, hs⟩ := parseCard_eq_some h
  subst hs
  refine ⟨buildProductUrl_startsWith_http link.href, ?_⟩
  intro link' hl' h1 h2
  have hll : link' = link := by
    rw [hl] at hl'
    exact ((Option.some.injEq _ _).mp hl').symm
  subst hll
  exact buildProductUrl_canonical link'.href h1 h2

/-- C6 witness: the summary emitted for the site-relative href
`/products/x` starts with `"http"` and with the canonical host. -/
theorem C6_url_witness :
    pyStartsWith c10Summary.url "http" = true
    ∧ pyStartsWith c10Summary.url BASE_URL = true :=
  have H := C6_url_amended c10Card c10Summary (by decide)
  ⟨H.1, H.2 { href := "/products/x", text := "Nice product" } rfl
      (by decide) (by decide)⟩

/-- C7 counterexample: on `c7Card` the extractor returns the name `"abc"`
(length 3, not exceeding the minimum length) and the price `"free"`
(containing no digit), and the card is emitted with those values — no
hypothesis in either strategy list passed its plausibility check, yet a
value was returned. -/
theorem C7_counterexample :
    parseCard c7Card = some c7Summary
    ∧ namePlausible c7Summary.name = false
    ∧ pricePlausible c7Summary.price = false := by
  exact ⟨by decide, by decide, by decide⟩

/-- C7 (amended): when some hypothesis in the ordered strategy list
produces a value that is non-empty and passes its plausibility check, the
first such value is returned (and it does pass its check: a price has a
digit, a name exceeds the minimum length); but when no produced value
passes, the extractor returns the value of the LAST hypothesis that
produced anything — which may be empty, digit-free (price) or at most the
minimum length (name) — rather than returning absent. -/
theorem C7_extractor_amended (sel : String → Option String) :
    (∀ t, (name_selectors.filterMap sel).find? namePlausible = some t →
        fieldLoop sel namePlausible name_selectors none = some t
        ∧ namePlausible t = true)
    ∧ ((name_selectors.filterMap sel).find? namePlausible = none →
        fieldLoop sel namePlausible name_selectors none
          = (name_selectors.filterMap sel).getLast?)
    ∧ (∀ t, (price_selectors.filterMap sel).find? pricePlausible = some t →
        fieldLoop sel pricePlausible price_selectors none = some t
        ∧ pricePlausible t = true)
    ∧ ((price_selectors.filterMap sel).find? pricePlausible = none →
        fieldLoop sel pricePlausible price_selectors none
          = (price_selectors.filterMap sel).getLast?) := by
  refine ⟨fun t h => ⟨fieldLoop_of_find?_eq_some _ _ _ _ _ h, List.find?_some h⟩,
    ?_, fun t h => ⟨fieldLoop_of_find?_eq_some _ _ _ _ _ h, List.find?_some h⟩, ?_⟩
  · intro h
    rw [fieldLoop_of_find?_eq_none _ _ _ _ h]
    cases hl : (name_selectors.filterMap sel).getLast? <;> simp
  · intro h
    rw [fieldLoop_of_find?_eq_none _ _ _ _ h]
    cases hl : (price_selectors.filterMap sel).getLast? <;> simp

/-- C7 witness: on `c7Card.sel` no hypothesis passes, and the loops return
the last produced values `"abc"` and `"free"`. -/
theorem C7_extractor_witness :
    fieldLoop c7Card.sel namePlausible name_selectors none = some "abc"
    ∧ fieldLoop c7Card.sel pricePlausible price_selectors none = some "free" :=
  have H := C7_extractor_amended c7Card.sel
  ⟨(H.2.1 (by decide)).trans (by decide),
   (H.2.2.2 (by decide)).trans (by decide)⟩

/-- C8: the facade never raises (it is a total function into record
lists); when the primary parse yields zero summaries and the fallback
backend is unavailable, fails, or also yields nothing, the result is `[]`
— not an error; a single-element error record is returned exactly on the
paths where the initial summary fetch itself raised and the fallback
backend is unavailable or also failed; and when the primary parse yields
summaries the facade returns the orchestrator's records. -/
theorem C8_facade_terminal (cards : List Card) (selenium : SeleniumResult)
    (fetch : String → Except String Doc) (m : Nat) (now e : String) :
    (parse_search_results cards = [] →
      search_products_facade (Except.ok cards) SeleniumResult.unavailable fetch m now = []
      ∧ (∀ se, search_products_facade (Except.ok cards) (SeleniumResult.failed se)
            fetch m now = [])
      ∧ search_products_facade (Except.ok cards) (SeleniumResult.ok []) fetch m now = [])
    ∧ (parse_search_results cards ≠ [] →
        search_products_facade (Except.ok cards) selenium fetch m now
          = search_products (parse_search_results cards) m fetch now)
    ∧ search_products_facade (Except.error e) SeleniumResult.unavailable fetch m now
        = [errorOnlyRecord ("Search failed: " ++ e)]
    ∧ (∀ se, search_products_facade (Except.error e) (SeleniumResult.failed se) fetch m now
        = [errorOnlyRecord ("Search failed: " ++ e ++ ". Selenium error: " ++ se)]) := by
  refine ⟨?_, ?_, rfl, fun se => rfl⟩
  · intro h
    refine ⟨?_, fun se => ?_, ?_⟩ <;>
      simp [search_products_facade, h]
  · intro h
    simp [search_products_facade, h]

/-- C8 witness: zero parsable summaries with no fallback give `[]`; a
failed initial fetch with no fallback gives the single-element error
record. -/
theorem C8_facade_witness :
    search_products_facade (Except.ok []) SeleniumResult.unavailable wFetch 10 "t" = []
    ∧ search_products_facade (Except.error "boom") SeleniumResult.unavailable wFetch 10 "t"
        = [errorOnlyRecord ("Search failed: " ++ "boom")] :=
  have H := C8_facade_terminal [] SeleniumResult.unavailable wFetch 10 "t" "boom"
  ⟨(H.1 rfl).1, H.2.2.1⟩

/-- C9: the detail parser is a total function — for every document and
url it yields a record with `product_url` equal to the url passed in and
no error field; and when every field extraction misses, the result is
exactly the initialized record with every extracted field empty (and
`product_url` still the given url). -/
theorem C9_detail_parser_totality (doc : Doc) (url now : String) :
    (parse_product_details doc url now).product_url = url
    ∧ (parse_product_details doc url now).error = none
    ∧ ((∀ q, doc.sel q = none) →
        parse_product_details doc url now =
          { product_name := "", price := "", original_price := "", discount := "",
            rating := "", review_count := "", seller_name := "",
            seller_location := "", seller_rating := "", brand := "",
            category := "", availability := "", description := "",
            specifications := [], product_url := url, rank := 0,
            scraped_at := now, error := none }) := by
  refine ⟨rfl, rfl, ?_⟩
  intro h
  have hfirst : ∀ sels, selectFirst doc.sel sels = "" := by
    intro sels
    induction sels with
    | nil => rfl
    | cons q rest ih => simp [selectFirst, h q, ih]
  have hdigit : ∀ sels, selectFirstDigit doc.sel sels = "" := by
    intro sels
    induction sels with
    | nil => rfl
    | cons q rest ih => simp [selectFirstDigit, h q, ih]
  simp [parse_product_details, hfirst, hdigit, h seller_primary_selector]

/-- C9 witness: the all-miss document yields the initialized record with
the given url. -/
theorem C9_detail_parser_witness :
    parse_product_details emptyDoc "u" "t" =
      { product_name := "", price := "", original_price := "", discount := "",
        rating := "", review_count := "", seller_name := "",
        seller_location := "", seller_rating := "", brand := "",
        category := "", availability := "", description := "",
        specifications := [], product_url := "u", rank := 0,
        scraped_at := "t", error := none } :=
  (C9_detail_parser_totality emptyDoc "u" "t").2.2 (fun _ => rfl)

/-- C10: every summary emitted by either summary parser has a non-empty
name, a non-empty url and a non-empty price, and the price is the
sentinel `"Price not available"` whenever price extraction produced
nothing (no text, or empty text). -/
theorem C10_summary_invariant (card : Card) (s : Summary) (ocard : OCard)
    (os : Summary) (h : parseCard card = some s)
    (ho : oParseCard ocard = some os) :
    s.name ≠ "" ∧ s.url ≠ "" ∧ s.price ≠ ""
    ∧ ((extractedPrice card = none ∨ extractedPrice card = some "") →
        s.price = "Price not available")
    ∧ os.name ≠ "" ∧ os.url ≠ "" ∧ os.price ≠ ""
    ∧ (oExtractPrice ocard = "" → os.price = "Price not available") := by
  obtain ⟨link, hl, hhref, hname, hs⟩ := parseCard_eq_some h
  obtain ⟨olink, holl, ohref, honame, hos⟩ := oParseCard_eq_some ho
  subst hs
  subst hos
  refine ⟨hname,
    startsWith_http_ne_empty _ (buildProductUrl_startsWith_http _),
    priceOrDefault_ne_empty _, ?_, honame,
    startsWith_http_ne_empty _ (buildProductUrl_startsWith_http _), ?_, ?_⟩
  · rintro (hp | hp) <;> simp [priceOrDefault, hp]
  · by_cases hp : oExtractPrice ocard = ""
    · simp only [if_pos hp]
      decide
    · simp only [if_neg hp]
      exact hp
  · intro hp
    simp [hp]

/-- C10 witness: cards with no extractable price are emitted by both
parsers with non-empty name and the sentinel price. -/
theorem C10_summary_witness :
    c10Summary.name ≠ "" ∧ c10Summary.price = "Price not available"
    ∧ c10OSummary.price = "Price not available" :=
  have H := C10_summary_invariant c10Card c10Summary c10OCard c10OSummary
    (by decide) (by decide)
  ⟨H.1, H.2.2.2.1 (Or.inl (by decide)), H.2.2.2.2.2.2.2 (by decide)⟩

end Daraz


